import Mathlib

/-!
Shallow embedding of the gke-managed-certs controller core:
the status-mapping tables built by `config.New`, the SslCertificate
cloud client (`ssl.go`), and the controller's enqueue / worker-loop
functions (`controller`). Effectful code is modelled as functions
producing a list of `Event`s in the order the corresponding calls
happen in the Go source.
-/

namespace GkeManagedCerts

/-! ## Constants from pkg/config/config.go -/

def managedActive : String := "Active"
def managedEmpty : String := ""
def managedFailedCaaChecking : String := "FailedCaaChecking"
def managedFailedCaaForbidden : String := "FailedCaaForbidden"
def managedFailedNotVisible : String := "FailedNotVisible"
def managedFailedRateLimited : String := "FailedRateLimited"
def managedProvisioning : String := "Provisioning"
def managedProvisioningFailed : String := "ProvisioningFailed"
def managedProvisioningFailedPermanently : String := "ProvisioningFailedPermanently"
def managedRenewalFailed : String := "RenewalFailed"

def sslActive : String := "ACTIVE"
def sslEmpty : String := ""
def sslFailedCaaChecking : String := "FAILED_CAA_CHECKING"
def sslFailedCaaForbidden : String := "FAILED_CAA_FORBIDDEN"
def sslFailedNotVisible : String := "FAILED_NOT_VISIBLE"
def sslFailedRateLimited : String := "FAILED_RATE_LIMITED"
def sslManagedCertificateStatusUnspecified : String := "MANAGED_CERTIFICATE_STATUS_UNSPECIFIED"
def sslProvisioning : String := "PROVISIONING"
def sslProvisioningFailed : String := "PROVISIONING_FAILED"
def sslProvisioningFailedPermanently : String := "PROVISIONING_FAILED_PERMANENTLY"
def sslRenewalFailed : String := "RENEWAL_FAILED"

/-! ## Status tables built by config.New

A Go `map[string]string` is modelled as an association list with
distinct keys; `mapAssign` is Go map assignment `m[k] = v`. -/

def mapAssign (m : List (String × String)) (k v : String) : List (String × String) :=
  match m with
  | [] => [(k, v)]
  | (k', v') :: rest => if k' = k then (k, v) :: rest else (k', v') :: mapAssign rest k v

/-- The sequence of assignments `domainStatuses[...] = ...` in config.New. -/
def domainStatuses : List (String × String) :=
  [(sslActive, managedActive),
   (sslFailedCaaChecking, managedFailedCaaChecking),
   (sslFailedCaaForbidden, managedFailedCaaForbidden),
   (sslFailedNotVisible, managedFailedNotVisible),
   (sslFailedRateLimited, managedFailedRateLimited),
   (sslProvisioning, managedProvisioning)].foldl (fun m kv => mapAssign m kv.1 kv.2) []

/-- The sequence of assignments `certificateStatuses[...] = ...` in config.New. -/
def certificateStatuses : List (String × String) :=
  [(sslActive, managedActive),
   (sslEmpty, managedEmpty),
   (sslManagedCertificateStatusUnspecified, managedEmpty),
   (sslProvisioning, managedProvisioning),
   (sslProvisioningFailed, managedProvisioningFailed),
   (sslProvisioningFailedPermanently, managedProvisioningFailedPermanently),
   (sslRenewalFailed, managedRenewalFailed)].foldl (fun m kv => mapAssign m kv.1 kv.2) []

/-- certificateStatusConfig from config.go: the two tables config.New wires
into the returned Config. -/
structure certificateStatusConfig where
  Certificate : List (String × String)
  Domain : List (String × String)
deriving DecidableEq

/-- The CertificateStatus field of the Config value built by config.New. -/
def newCertificateStatus : certificateStatusConfig :=
  { Certificate := certificateStatuses, Domain := domainStatuses }

/-! ## Cloud client (ssl.go)

The vendored GCP compute service is the environment: its per-call results
are fields of `SslCertificatesService`. Errors carry the binary
classification exposed at the client boundary. -/

/-- Cloud call error, classified as the client boundary classifies it:
not-found versus any other cloud error. -/
inductive CloudError
  | notFound
  | other (msg : String)
deriving DecidableEq

/-- Modelled from the spec: pkg/utils/http IsNotFound (repository code not
under src/) classifies a cloud error as not-found; the spec's error
classification at this boundary is binary (not-found vs generic). -/
def isNotFound : CloudError → Bool
  | .notFound => true
  | .other _ => false

/-- The fields of compute.SslCertificate the controller reads or writes. -/
structure SslCertificate where
  name : String
  domains : List String
  managed : Bool
deriving DecidableEq

/-- The vendored compute SslCertificates service, as the per-(project, name)
results of its calls. -/
structure SslCertificatesService where
  getResult : String → String → Except CloudError SslCertificate
  deleteResult : String → String → Option CloudError

structure sslImpl where
  service : SslCertificatesService
  projectID : String

/-- Get fetches an SslCertificate resource (ssl.go). -/
def sslImpl.Get (s : sslImpl) (name : String) : Except CloudError SslCertificate :=
  s.service.getResult s.projectID name

/-- Delete deletes an SslCertificate resource (ssl.go): it returns the
service call's error unchanged. -/
def sslImpl.Delete (s : sslImpl) (name : String) : Option CloudError :=
  s.service.deleteResult s.projectID name

/-- Exists (ssl.go): Get, then classify the outcome. Returns the Go pair
(bool, error) with `none` standing for a nil error. -/
def sslImpl.Exists (s : sslImpl) (name : String) : Bool × Option CloudError :=
  match s.Get name with
  | .ok _ => (true, none)
  | .error err => if isNotFound err then (false, none) else (false, some err)

/-! ## Controller (enqueue / enqueueAll / handle / processNextManagedCertificate)

Each controller function is embedded as a function from its inputs (the
listing, the queue item returned by Get, the reconciliation engine's
result) to the list of collaborator calls it makes, in source order. -/

/-- Modelled from the spec: pkg/utils/types CertId (repository code not
under src/) is the composite resource key (namespace, name). `nspace`
stands for the Go field `namespace`. -/
structure ResourceId where
  nspace : String
  name : String
deriving DecidableEq

/-- An item handed out by the work queue: in Go `obj interface{}`, which
is either a string key or something else (the non-string branch of the
type assertion in processNextManagedCertificate). -/
inductive QItem
  | str (s : String)
  | nonStr (tag : String)
deriving DecidableEq

/-- One collaborator call made by the controller, in source order. -/
inductive Event
  | log (msg : String)
  | handleError (msg : String)
  | addRateLimited (obj : QItem)
  | forget (obj : QItem)
  | done (obj : QItem)
  | observeMetrics (statuses : List (String × Nat))
deriving DecidableEq

/-- True on the queue re-add call `AddRateLimited`; in enqueueAll this is
the call `c.enqueue` bottoms out in, so it is the "enqueue" event. -/
def Event.isEnq : Event → Bool
  | .addRateLimited _ => true
  | _ => false

/-- True on the metrics call ObserveManagedCertificatesStatuses. -/
def Event.isObs : Event → Bool
  | .observeMetrics _ => true
  | _ => false

/-- True on the queue call Done. -/
def Event.isDone : Event → Bool
  | .done _ => true
  | _ => false

/-- The fields of a listed ManagedCertificate the controller reads:
metadata namespace/name and Status.CertificateStatus. -/
structure Mcrt where
  nspace : String
  name : String
  certificateStatus : String
deriving DecidableEq

/-- client-go cache.MetaNamespaceKeyFunc (external library): serializes
(namespace, name) to the queue key "namespace/name", or just "name" when
the namespace is empty; its error branch is unreachable for objects that
carry object metadata, as every listed ManagedCertificate does. -/
def metaNamespaceKeyFunc (m : Mcrt) : String :=
  if m.nspace = "" then m.name else m.nspace ++ "/" ++ m.name

/-- controller.enqueue: compute the key, log, AddRateLimited. -/
def enqueue (m : Mcrt) : List Event :=
  [Event.log ("Enqueuing ManagedCertificate: " ++ m.name),
   Event.addRateLimited (QItem.str (metaNamespaceKeyFunc m))]

/-- Go map increment `statuses[k]++` on a `map[string]int` modelled as an
association list: a missing key reads as 0 before the increment. -/
def bump (m : List (String × Nat)) (k : String) : List (String × Nat) :=
  match m with
  | [] => [(k, 1)]
  | (k', v) :: rest => if k' = k then (k', v + 1) :: rest else (k', v) :: bump rest k

/-- The `statuses` histogram the enqueueAll loop builds over the listing. -/
def histogram (mcrts : List Mcrt) : List (String × Nat) :=
  mcrts.foldl (fun acc m => bump acc m.certificateStatus) []

/-- controller.enqueueAll: list; on lister error HandleError and return;
on empty listing log and return; otherwise build the histogram, enqueue
every resource, then report the histogram to the metrics collaborator.
(The `names` slice the Go loop also builds is dead: nothing reads it.) -/
def enqueueAll (listing : Except String (List Mcrt)) : List Event :=
  match listing with
  | .error e => [Event.handleError e]
  | .ok mcrts =>
    if mcrts.length ≤ 0 then
      [Event.log "No ManagedCertificates found in cluster"]
    else
      (mcrts.flatMap enqueue) ++ [Event.observeMetrics (histogram mcrts)]

/-- strings.Split(s, "/") over the characters of s, as used by
cache.SplitMetaNamespaceKey. -/
def splitSlashAux : List Char → List Char → List (List Char)
  | [], acc => [acc.reverse]
  | c :: rest, acc =>
    if c = '/' then acc.reverse :: splitSlashAux rest []
    else splitSlashAux rest (c :: acc)

def splitSlash (s : String) : List String :=
  (splitSlashAux s.data []).map List.asString

/-- client-go cache.SplitMetaNamespaceKey (external library): splits the
key on "/"; one part means ("", key), two parts mean (namespace, name),
anything else is an error. -/
def splitMetaNamespaceKey (key : String) : Except String (String × String) :=
  match splitSlash key with
  | [name] => .ok ("", name)
  | [ns, name] => .ok (ns, name)
  | _ => .error ("unexpected key format: " ++ key)

/-- controller.handle: parse the key; on parse error return it; otherwise
run the reconciliation engine (`sync.ManagedCertificate`) on the parsed
ResourceId and return its result; nil on success. The engine is the
external collaborator `syncFn`, `none` standing for a nil error. -/
def handle (syncFn : ResourceId → Option String) (key : String) : Option String :=
  match splitMetaNamespaceKey key with
  | .error err => some err
  | .ok (ns, name) =>
    match syncFn ⟨ns, name⟩ with
    | some err => some err
    | none => none

/-- controller.processNextManagedCertificate, one iteration: Get() gave
`getResult` (`none` = shutting down). On shutdown return at once. The
deferred `Done(obj)` is the last event of every other branch. A
non-string item is Forgotten and reported; then handle(key): nil error
means Forget, an error means AddRateLimited plus HandleError. -/
def processNextManagedCertificate (syncFn : ResourceId → Option String)
    (getResult : Option QItem) : List Event :=
  match getResult with
  | none => []
  | some obj =>
    match obj with
    | QItem.nonStr _ =>
      [Event.forget obj, Event.handleError "Expected string in queue", Event.done obj]
    | QItem.str key =>
      match handle syncFn key with
      | none => [Event.forget obj, Event.done obj]
      | some err => [Event.addRateLimited obj, Event.handleError err, Event.done obj]

/-! ## Helper lemmas -/

theorem filter_isObs_flatMap_enqueue (l : List Mcrt) :
    (l.flatMap enqueue).filter Event.isObs = [] := by
  induction l with
  | nil => rfl
  | cons m t ih => simp [enqueue, Event.isObs, ih]

theorem filter_isEnq_flatMap_enqueue (l : List Mcrt) :
    (l.flatMap enqueue).filter Event.isEnq =
      l.map (fun m => Event.addRateLimited (QItem.str (metaNamespaceKeyFunc m))) := by
  induction l with
  | nil => rfl
  | cons m t ih => simp [enqueue, Event.isEnq, ih]

/-! ## Claims -/

/-- Claim C4: the certificate-level table built by config.New is exactly the
seven-entry map ACTIVE↦Active, ""↦"", MANAGED_CERTIFICATE_STATUS_UNSPECIFIED↦"",
PROVISIONING↦Provisioning, PROVISIONING_FAILED↦ProvisioningFailed,
PROVISIONING_FAILED_PERMANENTLY↦ProvisioningFailedPermanently,
RENEWAL_FAILED↦RenewalFailed, with no other key. -/
theorem certificateStatuses_exact_table :
    certificateStatuses =
      [("ACTIVE", "Active"), ("", ""), ("MANAGED_CERTIFICATE_STATUS_UNSPECIFIED", ""),
       ("PROVISIONING", "Provisioning"), ("PROVISIONING_FAILED", "ProvisioningFailed"),
       ("PROVISIONING_FAILED_PERMANENTLY", "ProvisioningFailedPermanently"),
       ("RENEWAL_FAILED", "RenewalFailed")] ∧
    (certificateStatuses.map Prod.fst).Nodup ∧
    newCertificateStatus.Certificate = certificateStatuses := by
  refine ⟨by decide, by decide, rfl⟩

/-- Claim C5: the domain-level table built by config.New is exactly the
six-entry map ACTIVE↦Active, FAILED_CAA_CHECKING↦FailedCaaChecking,
FAILED_CAA_FORBIDDEN↦FailedCaaForbidden, FAILED_NOT_VISIBLE↦FailedNotVisible,
FAILED_RATE_LIMITED↦FailedRateLimited, PROVISIONING↦Provisioning; in
particular it has no key for the permanently-failed or renewal-failed
statuses. -/
theorem domainStatuses_exact_table :
    domainStatuses =
      [("ACTIVE", "Active"), ("FAILED_CAA_CHECKING", "FailedCaaChecking"),
       ("FAILED_CAA_FORBIDDEN", "FailedCaaForbidden"),
       ("FAILED_NOT_VISIBLE", "FailedNotVisible"),
       ("FAILED_RATE_LIMITED", "FailedRateLimited"),
       ("PROVISIONING", "Provisioning")] ∧
    (domainStatuses.map Prod.fst).Nodup ∧
    domainStatuses.lookup "PROVISIONING_FAILED_PERMANENTLY" = none ∧
    domainStatuses.lookup "RENEWAL_FAILED" = none ∧
    newCertificateStatus.Domain = domainStatuses := by
  refine ⟨by decide, by decide, by decide, by decide, rfl⟩

/-- Claim C10: the two tables share exactly the keys ACTIVE and
PROVISIONING, and they agree there: both map ACTIVE to "Active" and
PROVISIONING to "Provisioning". -/
theorem status_tables_agree_on_shared_keys :
    (certificateStatuses.map Prod.fst).inter (domainStatuses.map Prod.fst) =
      ["ACTIVE", "PROVISIONING"] ∧
    certificateStatuses.lookup "ACTIVE" = some "Active" ∧
    domainStatuses.lookup "ACTIVE" = some "Active" ∧
    certificateStatuses.lookup "PROVISIONING" = some "Provisioning" ∧
    domainStatuses.lookup "PROVISIONING" = some "Provisioning" := by
  refine ⟨by decide, by decide, by decide, by decide, by decide⟩

/-- Claim C3: Exists(name) performs Get(name) and classifies the outcome:
success gives (true, nil), a not-found error gives (false, nil), and any
other error is returned unchanged as (false, err). -/
theorem Exists_classifies_Get (s : sslImpl) (name : String) :
    (∀ cert, s.Get name = Except.ok cert → s.Exists name = (true, none)) ∧
    (s.Get name = Except.error CloudError.notFound → s.Exists name = (false, none)) ∧
    (∀ msg, s.Get name = Except.error (CloudError.other msg) →
      s.Exists name = (false, some (CloudError.other msg))) := by
  refine ⟨fun cert h => ?_, fun h => ?_, fun msg h => ?_⟩ <;>
    simp [sslImpl.Exists, h, isNotFound]

def svcGetOk : SslCertificatesService :=
  { getResult := fun _ _ => .ok ⟨"mcrt-1", ["example.com"], true⟩,
    deleteResult := fun _ _ => none }

def svcGetNotFound : SslCertificatesService :=
  { getResult := fun _ _ => .error .notFound,
    deleteResult := fun _ _ => none }

def svcGetBoom : SslCertificatesService :=
  { getResult := fun _ _ => .error (.other "boom"),
    deleteResult := fun _ _ => none }

/-- Witness for C3 at three concrete services. -/
theorem Exists_classifies_Get_witness :
    sslImpl.Exists ⟨svcGetOk, "proj"⟩ "n" = (true, none) ∧
    sslImpl.Exists ⟨svcGetNotFound, "proj"⟩ "n" = (false, none) ∧
    sslImpl.Exists ⟨svcGetBoom, "proj"⟩ "n" = (false, some (CloudError.other "boom")) :=
  ⟨(Exists_classifies_Get ⟨svcGetOk, "proj"⟩ "n").1 ⟨"mcrt-1", ["example.com"], true⟩ rfl,
   (Exists_classifies_Get ⟨svcGetNotFound, "proj"⟩ "n").2.1 rfl,
   (Exists_classifies_Get ⟨svcGetBoom, "proj"⟩ "n").2.2 "boom" rfl⟩

/-- Claim C9: Delete issues the delete request and returns the provider's
error unchanged whenever the provider reports any error, not-found
included. -/
theorem Delete_propagates_provider_error (s : sslImpl) (name : String) (e : CloudError)
    (h : s.service.deleteResult s.projectID name = some e) :
    s.Delete name = some e := by
  simpa [sslImpl.Delete] using h

def svcDelNotFound : SslCertificatesService :=
  { getResult := fun _ _ => .error .notFound,
    deleteResult := fun _ _ => some .notFound }

/-- Witness for C9: a not-found provider error on delete comes back
unchanged, not swallowed. -/
theorem Delete_propagates_provider_error_witness :
    sslImpl.Delete ⟨svcDelNotFound, "proj"⟩ "absent" = some CloudError.notFound :=
  Delete_propagates_provider_error ⟨svcDelNotFound, "proj"⟩ "absent" CloudError.notFound rfl

/-- Claim C1 as stated is false: in enqueueAll the metrics call does not
precede the enqueues. On the one-element listing ("default", "site",
"Active") the trace has the enqueue (AddRateLimited) at index 1 and the
metrics call at index 2, so "the metrics call happens before any enqueue"
fails. -/
theorem enqueueAll_metrics_before_enqueue_refuted :
    ¬ ∀ (i j : Fin (enqueueAll (Except.ok [⟨"default", "site", "Active"⟩])).length),
        Event.isObs ((enqueueAll (Except.ok [⟨"default", "site", "Active"⟩])).get i) →
        Event.isEnq ((enqueueAll (Except.ok [⟨"default", "site", "Active"⟩])).get j) →
        (i : Nat) < (j : Nat) := by
  decide

/-- Claim C1 amended: EnqueueAll on a non-empty listing computes the
histogram of certificate-level statuses over the listing, enqueues every
listed resource, and reports the histogram via the metrics collaborator
after the enqueues: the metrics call is the last event, it is the only
metrics call, and the enqueue events are exactly the listed resources'
keys in listing order — the histogram still reflects pre-reconciliation
state, being computed from the listing. -/
theorem enqueueAll_enqueues_then_reports_metrics (mcrts : List Mcrt) (h : mcrts ≠ []) :
    ((enqueueAll (Except.ok mcrts)).getLast? =
      some (Event.observeMetrics (histogram mcrts))) ∧
    ((enqueueAll (Except.ok mcrts)).filter Event.isObs =
      [Event.observeMetrics (histogram mcrts)]) ∧
    ((enqueueAll (Except.ok mcrts)).filter Event.isEnq =
      mcrts.map (fun m => Event.addRateLimited (QItem.str (metaNamespaceKeyFunc m)))) := by
  have hlen : ¬ mcrts.length ≤ 0 := by
    simpa [Nat.le_zero, List.length_eq_zero] using h
  simp only [enqueueAll, if_neg hlen]
  refine ⟨?_, ?_, ?_⟩
  · rw [List.getLast?_concat]
  · rw [List.filter_append, filter_isObs_flatMap_enqueue]
    simp [Event.isObs]
  · rw [List.filter_append, filter_isEnq_flatMap_enqueue]
    simp [Event.isEnq]

/-- Witness for the amended C1 at a concrete one-element listing. -/
theorem enqueueAll_enqueues_then_reports_metrics_witness :
    (enqueueAll (Except.ok [⟨"default", "site", "Active"⟩])).getLast? =
      some (Event.observeMetrics [("Active", 1)]) :=
  (enqueueAll_enqueues_then_reports_metrics [⟨"default", "site", "Active"⟩]
    (by decide)).1

/-- Claim C2 as stated is false: a malformed string key — here "a/b/c",
which SplitMetaNamespaceKey rejects — is not Forgotten; the loop
re-enqueues it with AddRateLimited. -/
theorem malformed_key_not_forgotten_refuted :
    splitMetaNamespaceKey "a/b/c" = Except.error "unexpected key format: a/b/c" ∧
    Event.forget (QItem.str "a/b/c") ∉
      processNextManagedCertificate (fun _ => none) (some (QItem.str "a/b/c")) ∧
    Event.addRateLimited (QItem.str "a/b/c") ∈
      processNextManagedCertificate (fun _ => none) (some (QItem.str "a/b/c")) := by
  refine ⟨rfl, by decide, by decide⟩

/-- Claim C2 amended: the item the loop Forgets and drops is a non-string
queue item; a string key that cannot be parsed into a ResourceId is
treated like any other handle error — logged via the error handler and
re-enqueued with rate-limited backoff, not Forgotten. -/
theorem processNext_malformed_key_requeued (syncFn : ResourceId → Option String)
    (key e : String) (h : splitMetaNamespaceKey key = Except.error e) :
    (processNextManagedCertificate syncFn (some (QItem.str key)) =
      [Event.addRateLimited (QItem.str key), Event.handleError e,
       Event.done (QItem.str key)]) ∧
    (∀ tag, processNextManagedCertificate syncFn (some (QItem.nonStr tag)) =
      [Event.forget (QItem.nonStr tag), Event.handleError "Expected string in queue",
       Event.done (QItem.nonStr tag)]) := by
  refine ⟨?_, fun tag => rfl⟩
  simp [processNextManagedCertificate, handle, h]

/-- Witness for the amended C2 at the malformed key "a/b/c". -/
theorem processNext_malformed_key_requeued_witness :
    processNextManagedCertificate (fun _ => some "engine") (some (QItem.str "a/b/c")) =
      [Event.addRateLimited (QItem.str "a/b/c"),
       Event.handleError "unexpected key format: a/b/c",
       Event.done (QItem.str "a/b/c")] :=
  (processNext_malformed_key_requeued (fun _ => some "engine") "a/b/c"
    "unexpected key format: a/b/c" rfl).1

/-- Claim C6: one iteration of the processing loop: on shutdown it exits
with no effect; otherwise, for a key that parses to (ns, name), a nil
engine result means Forget (then the deferred Done), and an engine error
means AddRateLimited re-enqueue plus a report to the non-fatal error
handler (then the deferred Done) — the iteration always returns normally,
an engine error is never fatal. -/
theorem processNext_iteration_behavior (syncFn : ResourceId → Option String)
    (key ns name : String)
    (hparse : splitMetaNamespaceKey key = Except.ok (ns, name)) :
    (processNextManagedCertificate syncFn none = []) ∧
    (syncFn ⟨ns, name⟩ = none →
      processNextManagedCertificate syncFn (some (QItem.str key)) =
        [Event.forget (QItem.str key), Event.done (QItem.str key)]) ∧
    (∀ e, syncFn ⟨ns, name⟩ = some e →
      processNextManagedCertificate syncFn (some (QItem.str key)) =
        [Event.addRateLimited (QItem.str key), Event.handleError e,
         Event.done (QItem.str key)]) := by
  refine ⟨rfl, fun hs => ?_, fun e hs => ?_⟩ <;>
    simp [processNextManagedCertificate, handle, hparse, hs]

/-- Witness for C6 at the key "default/site" with a succeeding and with a
failing engine. -/
theorem processNext_iteration_behavior_witness :
    (processNextManagedCertificate (fun _ => none) (some (QItem.str "default/site")) =
      [Event.forget (QItem.str "default/site"), Event.done (QItem.str "default/site")]) ∧
    (processNextManagedCertificate (fun _ => some "boom") (some (QItem.str "default/site")) =
      [Event.addRateLimited (QItem.str "default/site"), Event.handleError "boom",
       Event.done (QItem.str "default/site")]) :=
  ⟨(processNext_iteration_behavior (fun _ => none) "default/site" "default" "site"
      rfl).2.1 rfl,
   (processNext_iteration_behavior (fun _ => some "boom") "default/site" "default" "site"
      rfl).2.2 "boom" rfl⟩

/-- Claim C7: on every path where Get() returned an item without
signalling shutdown — non-string item, malformed key, engine error,
success — Done is called exactly once on that item, as the last call of
the iteration; on the shutdown path nothing is called, so no Done. -/
theorem processNext_done_exactly_once (syncFn : ResourceId → Option String)
    (obj : QItem) :
    ((processNextManagedCertificate syncFn (some obj)).filter Event.isDone =
      [Event.done obj]) ∧
    ((processNextManagedCertificate syncFn (some obj)).getLast? =
      some (Event.done obj)) ∧
    (processNextManagedCertificate syncFn none = []) := by
  match obj with
  | QItem.nonStr tag =>
    refine ⟨rfl, rfl, rfl⟩
  | QItem.str key =>
    rcases hh : handle syncFn key with _ | err <;>
      simp [processNextManagedCertificate, hh, Event.isDone]

/-- Claim C8: EnqueueAll on an empty listing, and on a failed listing,
enqueues nothing and makes no metrics call: the whole trace is the one
log line, respectively the one error-handler call. -/
theorem enqueueAll_empty_listing_no_effects :
    (enqueueAll (Except.ok []) = [Event.log "No ManagedCertificates found in cluster"]) ∧
    ((enqueueAll (Except.ok [])).all (fun e => !(e.isEnq || e.isObs)) = true) ∧
    (∀ msg : String,
      enqueueAll (Except.error msg) = [Event.handleError msg] ∧
      (enqueueAll (Except.error msg)).all (fun e => !(e.isEnq || e.isObs)) = true) := by
  exact ⟨rfl, rfl, fun msg => ⟨rfl, rfl⟩⟩

end GkeManagedCerts
